import Mathlib

/-!
Shallow embedding of `src/service_monitor.py` (class `ServiceMonitor`), the
detect → recover → escalate control loop of the SystemMonitor repository.

External effects (running `systemctl` commands, sending mail, the filesystem
holding the state file and the lock file, wall-clock time) are modelled as
explicit environment records whose fields hold the results the Python code
would observe; the monitor's own logic is translated function by function,
keeping the source's names.  Machine integers are `Int`/`Nat` (Python ints are
unbounded); fallible operations return `Option` or carry explicit outcome
flags.
-/

namespace ServiceMonitor

/-- Configuration constants from the CONFIGURATION SECTION of
`service_monitor.py` (lines 65-70). -/
def ALERT_THRESHOLD : Nat := 10

/-- Seconds between alerts for the same service (line 66). -/
def ALERT_RATE_LIMIT : Int := 3600

/-- Number of recovery attempts before giving up (line 69). -/
def RETRY_COUNT : Nat := 3

/-- Result of `run_command` (line 194-208): return code, stripped stdout,
stripped stderr.  A timeout or exception is reported as `rc = -1`. -/
structure CmdResult where
  rc : Int
  stdout : String
  stderr : String
deriving DecidableEq

/-- Python's substring test `needle in hay`, on the character lists of the
strings (used at lines 349 and 381/413 for `"masked" in stdout` and
`"active" in status`). -/
def strContains (needle : List Char) : List Char → Bool
  | [] => needle.isEmpty
  | c :: rest => needle.isPrefixOf (c :: rest) || strContains needle rest

/-- `check_service_exists` (lines 340-343): the piped
`systemctl list-unit-files | grep -q` command's exit status is zero. -/
def check_service_exists (r : CmdResult) : Bool := r.rc == 0

/-- `is_service_masked` (lines 345-349): true when the `systemctl is-enabled`
output contains `"masked"` or the command exited nonzero. -/
def is_service_masked (r : CmdResult) : Bool :=
  strContains "masked".data r.stdout.data || r.rc != 0

/-- The activity test the source applies to a `systemctl is-active` result,
`rc == 0 and "active" in stdout` (lines 381 and 413). -/
def is_active_result (r : CmdResult) : Bool :=
  r.rc == 0 && strContains "active".data r.stdout.data

/-- The six action strings accepted by `perform_action` (lines 353-364). -/
inductive ActionKind where
  | restart
  | start
  | stop
  | mask
  | reload
  | tryRestart
deriving DecidableEq

/-- The actions for which `perform_action` re-probes liveness after a
successful command, `action in ["start", "restart", "try-restart"]`
(line 377). -/
def isVerifiedAction : ActionKind → Bool
  | .start => true
  | .restart => true
  | .tryRestart => true
  | _ => false

/-- Environment of one `perform_action` call: for each attempt index, the
result of the `systemctl <action>` command and of the post-action
`systemctl is-active` verification probe. -/
structure ActionEnv where
  attemptResults : Nat → CmdResult
  verifyResults : Nat → CmdResult

/-- One attempt of `perform_action` succeeds overall: the action command
exits zero and, for start/restart/try-restart, the verification probe
reports active (lines 373-386). -/
def attempt_ok (env : ActionEnv) (a : ActionKind) (i : Nat) : Bool :=
  (env.attemptResults i).rc == 0 &&
    (!isVerifiedAction a || is_active_result (env.verifyResults i))

/-- The retry loop of `perform_action` (lines 369-393), indexed by the
current attempt number and the remaining attempt budget.  Returns the
boolean result together with the number of action-command invocations
actually performed. -/
def performActionAux (env : ActionEnv) (a : ActionKind) : Nat → Nat → Bool × Nat
  | _, 0 => (false, 0)
  | i, r + 1 =>
    if (env.attemptResults i).rc == 0 then
      if isVerifiedAction a then
        if is_active_result (env.verifyResults i) then (true, 1)
        else
          let rest := performActionAux env a (i + 1) r
          (rest.1, rest.2 + 1)
      else (true, 1)
    else
      let rest := performActionAux env a (i + 1) r
      (rest.1, rest.2 + 1)

/-- `perform_action` (lines 351-393): run the retry loop for `RETRY_COUNT`
attempts starting at attempt 0. -/
def perform_action (env : ActionEnv) (a : ActionKind) : Bool × Nat :=
  performActionAux env a 0 RETRY_COUNT

/-- Per-service entry of `self.state`: `{"failures": ..., "last_alert": ...}`
(line 98).  `failures` is a count; `last_alert` is an epoch timestamp. -/
structure ServiceState where
  failures : Nat
  last_alert : Int
deriving DecidableEq

/-- The in-memory state table `self.state`, a finite mapping from service
name to `ServiceState`, as an insertion-ordered association list (Python
dicts preserve insertion order). -/
abbrev StateTable : Type := List (String × ServiceState)

/-- Lookup with the `defaultdict` default `{"failures": 0, "last_alert": 0}`
(line 98). -/
def getState : StateTable → String → ServiceState
  | [], _ => { failures := 0, last_alert := 0 }
  | (m, s) :: rest, n => if m == n then s else getState rest n

/-- Store an entry, replacing in place when the key is present and appending
otherwise (Python dict assignment semantics). -/
def setState : StateTable → String → ServiceState → StateTable
  | [], n, s => [(n, s)]
  | (m, s0) :: rest, n, s =>
    if m == n then (m, s) :: rest else (m, s0) :: setState rest n s

/-- Externally observable events of one `check_service` cycle, in order:
the `systemctl is-active` probe ran, `save_state` was attempted on a given
table (`ok` is whether the write succeeded), `perform_action` ran with the
given number of command invocations, and `send_alert` ran with the given
`send_email` outcome. -/
inductive Event where
  | probed (r : CmdResult)
  | saved (t : StateTable) (ok : Bool)
  | recovered (invocations : Nat)
  | alerted (sendOk : Bool)
deriving DecidableEq

/-- Environment of one `check_service` call: the results the external
commands would return this cycle, the action-attempt environment, the value
of `time.time()`, the `send_email` outcome, and whether `save_state`'s write
succeeds. -/
structure CycleEnv where
  existsResult : CmdResult
  enabledResult : CmdResult
  activeResult : CmdResult
  actionEnv : ActionEnv
  now : Int
  sendOk : Bool
  saveOk : Bool

/-- `check_service` (lines 395-450), translated branch by branch.  Returns
the updated state table and the ordered list of observable events.  Note
that in the alert branch the source invokes `send_alert` and then records
`last_alert = current_time` unconditionally (lines 448-450), whatever
`send_email` returned. -/
def check_service (env : CycleEnv) (name : String) (action : ActionKind)
    (alarm_enabled : Bool) (t : StateTable) : StateTable × List Event :=
  if !check_service_exists env.existsResult then (t, [])
  else if is_service_masked env.enabledResult then (t, [])
  else if is_active_result env.activeResult then
    if (getState t name).failures > 0 then
      let t1 := setState t name { getState t name with failures := 0 }
      (t1, [.probed env.activeResult, .saved t1 env.saveOk])
    else (t, [.probed env.activeResult])
  else
    let s0 := getState t name
    let t1 := setState t name { s0 with failures := s0.failures + 1 }
    let res := perform_action env.actionEnv action
    if res.1 then
      let t2 := setState t1 name { getState t1 name with failures := 0 }
      (t2, [.probed env.activeResult, .saved t1 env.saveOk, .recovered res.2,
            .saved t2 env.saveOk])
    else
      let s1 := getState t1 name
      if alarm_enabled && decide (s1.failures ≥ ALERT_THRESHOLD) then
        if decide (env.now - s1.last_alert ≥ ALERT_RATE_LIMIT) then
          let t2 := setState t1 name { s1 with last_alert := env.now }
          (t2, [.probed env.activeResult, .saved t1 env.saveOk,
                .recovered res.2, .alerted env.sendOk, .saved t2 env.saveOk])
        else (t1, [.probed env.activeResult, .saved t1 env.saveOk,
                   .recovered res.2])
      else (t1, [.probed env.activeResult, .saved t1 env.saveOk,
                 .recovered res.2])

/-- The escalation decision of lines 441-447 as a pure function of the
persisted entry, the alarm flag and the current time: alarm enabled,
failures at or past `ALERT_THRESHOLD`, and at least `ALERT_RATE_LIMIT`
seconds since the last alert. -/
def shouldAlert (s : ServiceState) (alarm_enabled : Bool) (now : Int) : Bool :=
  alarm_enabled && decide (s.failures ≥ ALERT_THRESHOLD) &&
    decide (now - s.last_alert ≥ ALERT_RATE_LIMIT)

/-- JSON values, the data `json.load`/`json.dump` move between the state
file and `self.state` (lines 175-192). -/
inductive Json where
  | num (n : Int)
  | str (s : String)
  | bool (b : Bool)
  | null
  | arr (xs : List Json)
  | obj (fields : List (String × Json))

/-- The JSON shape `json.dump` gives one `ServiceState` entry
(`{"failures": ..., "last_alert": ...}`, field order as created at
line 98). -/
def encodeState (s : ServiceState) : Json :=
  .obj [("failures", .num s.failures), ("last_alert", .num s.last_alert)]

/-- The JSON object `json.dump(dict(self.state), ...)` writes (line 190). -/
def encodeTable (t : StateTable) : Json :=
  .obj (t.map fun p => (p.1, encodeState p.2))

/-- `save_state` (lines 186-192) at the value level: what `json.dump`
serializes when the write succeeds. -/
def save_state (t : StateTable) : Json := encodeTable t

/-- What `self.state` holds immediately after `load_state` adopts a parsed
file: service names mapped to arbitrary JSON values.  Python performs no
shape validation on the values — `defaultdict(lambda: ..., json.load(f))`
at line 180 takes the mapping verbatim, whatever its values look like. -/
abbrev RawTable : Type := List (String × Json)

/-- The state file as `load_state` (lines 175-184) observes it: absent
(the `exists()` guard at line 178 leaves the empty default table); present
but with text that reading or `json.load` raises on; or present with text
that parses to the JSON value `j`. -/
inductive StateFile where
  | missing
  | unparsable
  | parsed (j : Json)

/-- Python's `dict()` conversion of a list, as `defaultdict(default, list)`
performs it: every element must be a two-element sequence, here a
two-element array whose first component is a string key.  (Python's
`dict()` also accepts other exotic two-element sequences — non-string
keys, two-character strings, two-entry mappings — which a string-keyed
table cannot carry; no theorem below relies on this branch.) -/
def pairs_of_elems : List Json → Option RawTable
  | [] => some ([] : List (String × Json))
  | .arr [.str k, v] :: rest =>
    (pairs_of_elems rest).map (fun t => (k, v) :: t)
  | _ => none

/-- The conversion `defaultdict(lambda: ..., x)` applies at line 180 to the
value `json.load` returned: a JSON object is taken verbatim as a mapping;
a list is converted pairwise; the empty string iterates to the empty
mapping; every other value raises `TypeError`/`ValueError`, which the
`except` at line 182 catches. -/
def dict_of_json : Json → Option RawTable
  | .obj fields => some fields
  | .arr xs => pairs_of_elems xs
  | .str s => if s.isEmpty then some ([] : List (String × Json)) else none
  | _ => none

/-- `load_state` (lines 175-184): a missing file keeps the empty default
table; a file whose reading or parsing raises, or whose parsed value the
dict conversion rejects, hits the `except` path at line 182 — a warning is
logged and the table is reset to empty; a successfully converted mapping
is adopted verbatim, with no validation of the values' shapes.  The caller
always receives a table; no error escapes. -/
def load_state : StateFile → RawTable
  | .missing => ([] : List (String × Json))
  | .unparsable => ([] : List (String × Json))
  | .parsed j =>
    match dict_of_json j with
    | some raw => raw
    | none => ([] : List (String × Json))

/-- The Python value a typed state table has on disk and right after a
reload: each entry serialized by `encodeState`. -/
def rawOfTable (t : StateTable) : RawTable :=
  t.map fun p => (p.1, encodeState p.2)

/-- Serialization of one entry as `json.dump(..., indent=2)` renders it
(line 190). -/
def renderState (s : ServiceState) : String :=
  "\x7b\n    \"failures\": " ++ toString s.failures ++
    ",\n    \"last_alert\": " ++ toString s.last_alert ++ "\n  \x7d"

/-- Serialization of the entry list of the state table, comma-separated. -/
def renderEntries : StateTable → String
  | [] => ""
  | [(n, s)] => "  \"" ++ n ++ "\": " ++ renderState s
  | (n, s) :: rest => "  \"" ++ n ++ "\": " ++ renderState s ++ ",\n" ++
      renderEntries (rest : List (String × ServiceState))

/-- Serialization of the whole state table as `json.dump(..., indent=2)`
renders it. -/
def renderTable : StateTable → String
  | [] => "\x7b\x7d"
  | t => "\x7b\n" ++ renderEntries t ++ "\n\x7d"

/-- File-level crash semantics of `save_state` (lines 186-192): the source
opens the state file with mode `'w'`, which truncates it in place, and then
streams the serialization into it; a crash after `k` characters therefore
leaves the first `k` characters of the NEW serialization, whatever the old
content was. -/
def save_state_afterCrash (old : String) (t : StateTable) (k : Nat) : String :=
  String.mk ((renderTable t).data.take k)

/-- The atomicity property the spec ascribes to `save`: however far the
write got before a crash, the file holds either the old content or the
complete new serialization. -/
def save_state_atomic : Prop :=
  ∀ (old : String) (t : StateTable) (k : Nat),
    save_state_afterCrash old t k = old ∨
      save_state_afterCrash old t k = renderTable t

/-- Python's `str.strip()`: drop leading and trailing whitespace
(line 528, `f.read().strip()`). -/
def pyStrip (s : String) : List Char :=
  ((s.data.dropWhile Char.isWhitespace).reverse.dropWhile
    Char.isWhitespace).reverse

/-- Accumulate decimal digits; any non-digit character fails (models the
`ValueError` from Python's `int(...)`). -/
def parseNatAux : List Char → Nat → Option Nat
  | [], acc => some acc
  | c :: rest, acc =>
    if c.isDigit then parseNatAux rest (acc * 10 + (c.toNat - 48)) else none

/-- Python's `int(s.strip())` (line 528): optional sign followed by at
least one decimal digit, else a `ValueError` (here `none`). -/
def int_of_string (s : String) : Option Int :=
  match pyStrip s with
  | [] => none
  | '-' :: rest =>
    if rest.isEmpty then none
    else (parseNatAux rest 0).map (fun n => -(n : Int))
  | '+' :: rest =>
    if rest.isEmpty then none
    else (parseNatAux rest 0).map (fun n => (n : Int))
  | cs => (parseNatAux cs 0).map (fun n => (n : Int))

/-- Filesystem state relevant to the lock (lines 516-543): the lock file's
content if present, which process ids are alive (`os.kill(pid, 0)`
succeeding), and whether `os.remove` on the lock file raises. -/
structure LockFS where
  lock : Option String
  alive : Int → Bool
  removeFails : Bool

/-- Outcome of `acquire_lock`: `acquired`/`busy` are its `True`/`False`
returns; `raised` is an `OSError` escaping from `os.remove` at line 534
(the `except (OSError, ValueError)` at line 532 covers only the preceding
`try` block, so a removal failure propagates to the caller); `fuelOut`
marks exhaustion of the modelling recursion bound, proved unreachable at
depth 2. -/
inductive AcqOutcome where
  | acquired
  | busy
  | raised
  | fuelOut
deriving DecidableEq

/-- `acquire_lock` (lines 516-535).  `os.open(..., O_CREAT | O_EXCL)`
succeeds exactly when the lock file is absent, writing this process's pid;
on collision the recorded content is parsed with `int_of_string`, which
models `int(f.read().strip())`; a live pid means
another instance runs (`False`); otherwise the stale lock is removed and
acquisition retried (`return self.acquire_lock()`). -/
def acquire_lock (me : Int) : Nat → LockFS → AcqOutcome × LockFS
  | 0, fs => (.fuelOut, fs)
  | fuel + 1, fs =>
    match fs.lock with
    | none => (.acquired, { fs with lock := some (toString me) })
    | some content =>
      match int_of_string content with
      | some pid =>
        if fs.alive pid then (.busy, fs)
        else if fs.removeFails then (.raised, fs)
        else acquire_lock me fuel { fs with lock := none }
      | none =>
        if fs.removeFails then (.raised, fs)
        else acquire_lock me fuel { fs with lock := none }

/-- `release_lock` (lines 537-543): remove the lock file when it exists;
the bare `except: pass` swallows a failing `os.remove`, so the function
always returns normally. -/
def release_lock (fs : LockFS) : LockFS :=
  match fs.lock with
  | none => fs
  | some _ => if fs.removeFails then fs else { fs with lock := none }

/-- Environment of one whole process run: the effective uid `__init__`
checks (line 106), this process's pid, the lock filesystem, and whether an
unexpected exception is raised inside the `try` body of `run` (line 575). -/
structure RunEnv where
  euid : Int
  myPid : Int
  fs : LockFS
  bodyRaises : Bool

/-- Observable process-level events of `run` (lines 545-582). -/
inductive RunEvent where
  | acquiredLock
  | loggedError
  | savedFinalState
  | releasedLock
deriving DecidableEq

/-- The process lifecycle around `run` (lines 106-108 and 545-582),
returning the exit status, the event trace and the final lock filesystem.
`__init__` exits 1 when not root; `run` exits 1 when `acquire_lock` returns
`False` (and a raised removal error likewise ends the process nonzero,
uncaught); otherwise the body runs, an unexpected exception is caught and
logged at line 576, and the `finally` block saves state and releases the
lock before `run` returns normally — so the process exits 0. -/
def program_run (env : RunEnv) : Nat × List RunEvent × LockFS :=
  if env.euid != 0 then (1, [], env.fs)
  else
    match acquire_lock env.myPid 2 env.fs with
    | (.acquired, fs1) =>
      (0, [RunEvent.acquiredLock] ++
            (if env.bodyRaises then [RunEvent.loggedError] else []) ++
            [RunEvent.savedFinalState, RunEvent.releasedLock],
        release_lock fs1)
    | (_, fs1) => (1, [], fs1)

/-- Closed form of `acquire_lock` at any recursion depth of at least two:
the one bounded retry after stale-lock removal always ends in fresh
acquisition, so no deeper recursion is ever taken. -/
def acquire_lock_outcome (me : Int) (fs : LockFS) : AcqOutcome × LockFS :=
  match fs.lock with
  | none => (.acquired, { fs with lock := some (toString me) })
  | some content =>
    match int_of_string content with
    | some pid =>
      if fs.alive pid then (.busy, fs)
      else if fs.removeFails then (.raised, fs)
      else (.acquired, { fs with lock := some (toString me) })
    | none =>
      if fs.removeFails then (.raised, fs)
      else (.acquired, { fs with lock := some (toString me) })

/-- Concrete action environment: the first attempt's command fails, the
second succeeds; verification probes report active. -/
def c4Env : ActionEnv :=
  ⟨fun i => if i == 0 then ⟨1, "", "boom"⟩ else ⟨0, "", ""⟩,
    fun _ => ⟨0, "active", ""⟩⟩

/-- Concrete cycle environment for the escalation branch: the service
exists, is enabled, is inactive (`is-active` exits 3), every recovery
attempt's command fails, the clock reads 5000, and `send_email` FAILS. -/
def alertEnv : CycleEnv :=
  { existsResult := ⟨0, "", ""⟩
    enabledResult := ⟨0, "enabled", ""⟩
    activeResult := ⟨3, "inactive", ""⟩
    actionEnv := ⟨fun _ => ⟨1, "", "err"⟩, fun _ => ⟨1, "", ""⟩⟩
    now := 5000
    sendOk := false
    saveOk := true }

/-- Concrete state table: one service at nine prior failures, never
alerted. -/
def alertTable : StateTable := [("apache2.service", ⟨9, 0⟩)]

/-- Concrete cycle environment: the service exists, is enabled and the
liveness probe reports active. -/
def activeEnv : CycleEnv :=
  { existsResult := ⟨0, "", ""⟩
    enabledResult := ⟨0, "enabled", ""⟩
    activeResult := ⟨0, "active", ""⟩
    actionEnv := ⟨fun _ => ⟨0, "", ""⟩, fun _ => ⟨0, "active", ""⟩⟩
    now := 0
    sendOk := true
    saveOk := true }

/-- Concrete cycle environment: the service exists but `is-enabled` exits
nonzero reporting `disabled` — not masked, merely disabled. -/
def disabledEnv : CycleEnv :=
  { existsResult := ⟨0, "", ""⟩
    enabledResult := ⟨1, "disabled", ""⟩
    activeResult := ⟨3, "inactive", ""⟩
    actionEnv := ⟨fun _ => ⟨0, "", ""⟩, fun _ => ⟨0, "active", ""⟩⟩
    now := 0
    sendOk := true
    saveOk := true }

/-- Concrete cycle environment whose state-file write fails: the service
exists, is enabled, is inactive, recovery commands fail, and `save_state`
raises (caught and logged by the source). -/
def failSaveEnv : CycleEnv :=
  { existsResult := ⟨0, "", ""⟩
    enabledResult := ⟨0, "enabled", ""⟩
    activeResult := ⟨3, "failed", ""⟩
    actionEnv := ⟨fun _ => ⟨1, "", "err"⟩, fun _ => ⟨1, "", ""⟩⟩
    now := 100
    sendOk := true
    saveOk := false }

/-- Concrete lock filesystem: a stale lock recording pid 12, no process
alive, removal succeeds. -/
def staleFS : LockFS :=
  { lock := some "12", alive := fun _ => false, removeFails := false }

/-- Concrete lock filesystem with no lock file present. -/
def emptyFS : LockFS :=
  { lock := none, alive := fun _ => false, removeFails := false }

/-- Concrete run environment: root, lock acquirable, and an unexpected
exception raised inside the monitoring loop. -/
def c8Env : RunEnv :=
  { euid := 0, myPid := 42, fs := emptyFS, bodyRaises := true }

/-! ### Helper lemmas -/

/-- Storing an entry and reading it back under the same name yields the
stored entry. -/
theorem getState_setState (t : StateTable) (n : String) (s : ServiceState) :
    getState (setState t n s) n = s := by
  induction t with
  | nil => simp [getState, setState]
  | cons p rest ih =>
    obtain ⟨m, s0⟩ := p
    by_cases h : m == n
    · simp [setState, getState, h]
    · simp [setState, getState, h, ih]

/-- The retry loop performs at most as many action invocations as its
remaining budget. -/
theorem performActionAux_count_le (env : ActionEnv) (a : ActionKind) :
    ∀ r i, (performActionAux env a i r).2 ≤ r := by
  intro r
  induction r with
  | zero => intro i; simp [performActionAux]
  | succ r ih =>
    intro i
    rw [performActionAux]
    split
    · split
      · split
        · simp
        · simpa using ih (i + 1)
      · simp
    · simpa using ih (i + 1)

/-- The retry loop returns true exactly when some attempt within the
remaining budget fully succeeds. -/
theorem performActionAux_true_iff (env : ActionEnv) (a : ActionKind) :
    ∀ r i, (performActionAux env a i r).1 = true ↔
      ∃ j, j < r ∧ attempt_ok env a (i + j) = true := by
  intro r
  induction r with
  | zero => intro i; simp [performActionAux]
  | succ r ih =>
    intro i
    have hsplit : (∃ j, j < r + 1 ∧ attempt_ok env a (i + j) = true) ↔
        (attempt_ok env a i = true ∨
          ∃ j, j < r ∧ attempt_ok env a (i + 1 + j) = true) := by
      constructor
      · rintro ⟨j, hj, hok⟩
        rcases Nat.eq_zero_or_pos j with rfl | hpos
        · exact Or.inl (by simpa using hok)
        · refine Or.inr ⟨j - 1, by omega, ?_⟩
          rw [show i + 1 + (j - 1) = i + j from by omega]
          exact hok
      · rintro (hok | ⟨j, hj, hok⟩)
        · exact ⟨0, by omega, by simpa using hok⟩
        · refine ⟨j + 1, by omega, ?_⟩
          rw [show i + (j + 1) = i + 1 + j from by omega]
          exact hok
    rw [hsplit, performActionAux]
    cases hrc : ((env.attemptResults i).rc == 0) with
    | false =>
      have hnot : attempt_ok env a i = false := by simp [attempt_ok, hrc]
      simp [hrc, hnot, ih (i + 1)]
    | true =>
      cases hv : isVerifiedAction a with
      | false =>
        have hok : attempt_ok env a i = true := by simp [attempt_ok, hrc, hv]
        simp [hrc, hv, hok]
      | true =>
        cases hva : is_active_result (env.verifyResults i) with
        | false =>
          have hnot : attempt_ok env a i = false := by
            simp [attempt_ok, hrc, hv, hva]
          simp [hrc, hv, hva, hnot, ih (i + 1)]
        | true =>
          have hok : attempt_ok env a i = true := by
            simp [attempt_ok, hrc, hv, hva]
          simp [hrc, hv, hva, hok]

/-- A command success whose post-verification fails consumes one slot of the
same retry budget: the loop continues at the next attempt with the budget
reduced by one, and the invocation count grows by one. -/
theorem performActionAux_verify_fail_consumes (env : ActionEnv) (a : ActionKind)
    (i r : Nat) (hrc : ((env.attemptResults i).rc == 0) = true)
    (hv : isVerifiedAction a = true)
    (hva : is_active_result (env.verifyResults i) = false) :
    performActionAux env a i (r + 1) =
      ((performActionAux env a (i + 1) r).1,
        (performActionAux env a (i + 1) r).2 + 1) := by
  rw [performActionAux]
  simp [hrc, hv, hva]

/-- Serialization of one entry is injective: the JSON image of a
`ServiceState` determines it. -/
theorem encodeState_injective (s1 s2 : ServiceState)
    (h : encodeState s1 = encodeState s2) : s1 = s2 := by
  cases s1
  cases s2
  simp only [encodeState, Json.obj.injEq, List.cons.injEq, Prod.mk.injEq,
    Json.num.injEq, Int.natCast_inj, and_true, true_and] at h
  simp [h.1, h.2]

/-- Serialization of a table is injective: the JSON image on disk
determines the typed table, so the save/load round trip loses nothing. -/
theorem rawOfTable_injective :
    ∀ t1 t2 : StateTable, rawOfTable t1 = rawOfTable t2 → t1 = t2 := by
  intro t1
  induction t1 with
  | nil =>
    intro t2 h
    cases t2 with
    | nil => rfl
    | cons q r2 => simp [rawOfTable] at h
  | cons p r ih =>
    intro t2 h
    cases t2 with
    | nil => simp [rawOfTable] at h
    | cons q r2 =>
      simp only [rawOfTable, List.map_cons, List.cons.injEq,
        Prod.mk.injEq] at h
      obtain ⟨⟨h1, hv⟩, hr⟩ := h
      have h2 : p.2 = q.2 := encodeState_injective _ _ hv
      have hrest : r = r2 := ih r2 (by simpa [rawOfTable] using hr)
      cases p
      cases q
      simp_all

/-- `acquire_lock` computes its closed form at every fuel of the shape
`fuel + 2`. -/
theorem acquire_lock_eq_outcome (me : Int) (fs : LockFS) (fuel : Nat) :
    acquire_lock me (fuel + 2) fs = acquire_lock_outcome me fs := by
  show acquire_lock me (fuel + 1 + 1) fs = _
  rcases hfs : fs.lock with _ | content
  · simp [acquire_lock, acquire_lock_outcome, hfs]
  · rcases hp : int_of_string content with _ | pid
    · cases hr : fs.removeFails with
      | false => simp [acquire_lock, acquire_lock_outcome, hfs, hp, hr]
      | true => simp [acquire_lock, acquire_lock_outcome, hfs, hp, hr]
    · cases ha : fs.alive pid with
      | false =>
        cases hr : fs.removeFails with
        | false => simp [acquire_lock, acquire_lock_outcome, hfs, hp, ha, hr]
        | true => simp [acquire_lock, acquire_lock_outcome, hfs, hp, ha, hr]
      | true => simp [acquire_lock, acquire_lock_outcome, hfs, hp, ha]

/-- When `acquire_lock` reports success, the lock file records this
process's pid. -/
theorem acquire_lock_acquired_content (me : Int) :
    ∀ (fuel : Nat) (fs : LockFS), (acquire_lock me fuel fs).1 = .acquired →
      (acquire_lock me fuel fs).2.lock = some (toString me) := by
  intro fuel
  induction fuel with
  | zero => intro fs h; simp [acquire_lock] at h
  | succ fuel ih =>
    intro fs h
    rw [acquire_lock] at h ⊢
    rcases hfs : fs.lock with _ | content
    · simp [hfs]
    · simp only [hfs] at h ⊢
      rcases hp : int_of_string content with _ | pid
      · simp only [hp] at h ⊢
        cases hr : fs.removeFails with
        | false => simp only [hr, if_false] at h ⊢; exact ih _ h
        | true => simp [hr] at h
      · simp only [hp] at h ⊢
        cases ha : fs.alive pid with
        | false =>
          cases hr : fs.removeFails with
          | false => simp only [ha, hr, if_false] at h ⊢; exact ih _ h
          | true => simp [ha, hr] at h
        | true => simp [ha] at h

/-! ### Claim theorems -/

/-- Claim C2: the escalation decision is true iff the alarm flag is set,
`failures` is at least `ALERT_THRESHOLD` (10) and at least
`ALERT_RATE_LIMIT` (3600) seconds passed since `last_alert`; consequently
it is never true below the threshold, it is true on the exact cycle the
threshold is reached when the rate limit permits, recording the alert time
silences it for the next `ALERT_RATE_LIMIT` seconds, and inside
`check_service` the notifier branch fires exactly when this decision holds
of the post-increment state. -/
theorem c2_alert_gate :
    (∀ (s : ServiceState) (alarm : Bool) (now : Int),
      shouldAlert s alarm now = true ↔
        (alarm = true ∧ ALERT_THRESHOLD ≤ s.failures ∧
          ALERT_RATE_LIMIT ≤ now - s.last_alert))
    ∧ (∀ (s : ServiceState) (alarm : Bool) (now : Int),
        s.failures < ALERT_THRESHOLD → shouldAlert s alarm now = false)
    ∧ (∀ (s : ServiceState) (now : Int), s.failures = ALERT_THRESHOLD →
        ALERT_RATE_LIMIT ≤ now - s.last_alert → shouldAlert s true now = true)
    ∧ (∀ (s : ServiceState) (alarm : Bool) (now now' : Int),
        shouldAlert s alarm now = true → now' - now < ALERT_RATE_LIMIT →
        shouldAlert { s with last_alert := now } alarm now' = false)
    ∧ (∀ (env : CycleEnv) (name : String) (action : ActionKind)
        (alarm : Bool) (t : StateTable),
        check_service_exists env.existsResult = true →
        is_service_masked env.enabledResult = false →
        is_active_result env.activeResult = false →
        (perform_action env.actionEnv action).1 = false →
        (Event.alerted env.sendOk ∈ (check_service env name action alarm t).2 ↔
          shouldAlert { getState t name with
            failures := (getState t name).failures + 1 } alarm env.now = true)) := by
  refine ⟨?_, ?_, ?_, ?_, ?_⟩
  · intro s alarm now
    simp [shouldAlert, and_assoc]
  · intro s alarm now h
    have hd : decide (s.failures ≥ ALERT_THRESHOLD) = false := by
      simp; omega
    simp [shouldAlert, hd]
  · intro s now h1 h2
    simp [shouldAlert, h1, h2]
  · intro s alarm now now' h hlt
    have h2 : ¬ (now' - now ≥ ALERT_RATE_LIMIT) := by omega
    simp [shouldAlert, h2]
  · intro env name action alarm t hex hmask hact hrec
    have hget := getState_setState t name
      { getState t name with failures := (getState t name).failures + 1 }
    simp only [check_service, hex, hmask, hact, hrec, Bool.not_true,
      Bool.false_eq_true, if_false, shouldAlert, hget]
    split
    · split
      · simp_all [shouldAlert, hget]
      · simp_all [shouldAlert, hget]
    · simp_all [shouldAlert, hget]

/-- Closed instance of the alert gate at the threshold. -/
theorem c2_witness :
    shouldAlert { failures := 10, last_alert := 0 } true 4000 = true :=
  c2_alert_gate.2.2.1 { failures := 10, last_alert := 0 } 4000 (by decide)
    (by decide)

/-- Claim C4: the recovery routine invokes the external action at most
`RETRY_COUNT` times; it returns true exactly when some attempt's command
succeeds and, for verified action kinds, the single post-invocation
re-probe confirms active status; mask/stop/reload succeed on command
success alone; a failed post-verification consumes a slot of the same
retry budget; and it returns false exactly when every attempt in the
budget fails. -/
theorem c4_perform_action_retry_budget (env : ActionEnv) (a : ActionKind) :
    (perform_action env a).2 ≤ RETRY_COUNT
    ∧ ((perform_action env a).1 = true ↔
        ∃ j, j < RETRY_COUNT ∧ attempt_ok env a j = true)
    ∧ (isVerifiedAction a = false →
        ((perform_action env a).1 = true ↔
          ∃ j, j < RETRY_COUNT ∧ ((env.attemptResults j).rc == 0) = true))
    ∧ ((perform_action env a).1 = false ↔
        ∀ j, j < RETRY_COUNT → attempt_ok env a j = false)
    ∧ (∀ i r, ((env.attemptResults i).rc == 0) = true →
        isVerifiedAction a = true →
        is_active_result (env.verifyResults i) = false →
        performActionAux env a i (r + 1) =
          ((performActionAux env a (i + 1) r).1,
            (performActionAux env a (i + 1) r).2 + 1)) := by
  have htrue : (perform_action env a).1 = true ↔
      ∃ j, j < RETRY_COUNT ∧ attempt_ok env a j = true := by
    unfold perform_action
    rw [performActionAux_true_iff]
    simp
  refine ⟨performActionAux_count_le env a RETRY_COUNT 0, htrue, ?_, ?_, ?_⟩
  · intro hv
    rw [htrue]
    constructor
    · rintro ⟨j, hj, hok⟩
      refine ⟨j, hj, ?_⟩
      simpa [attempt_ok, hv] using hok
    · rintro ⟨j, hj, hok⟩
      exact ⟨j, hj, by simp [attempt_ok, hv, hok]⟩
  · rw [← Bool.not_eq_true, htrue]
    push_neg
    constructor
    · intro h j hj
      simpa using h j hj
    · intro h j hj
      simp [h j hj]
  · intro i r hrc hv hva
    exact performActionAux_verify_fail_consumes env a i r hrc hv hva

/-- Closed instance of the recovery-budget theorem: for the unverified
`mask` action the result is command success alone, and the concrete run
returns true after two invocations. -/
theorem c4_witness :
    ((perform_action c4Env ActionKind.mask).1 = true ↔
      ∃ j, j < RETRY_COUNT ∧ ((c4Env.attemptResults j).rc == 0) = true)
    ∧ perform_action c4Env ActionKind.mask = (true, 2) :=
  ⟨(c4_perform_action_retry_budget c4Env ActionKind.mask).2.2.1 (by decide),
    by decide⟩

/-- Claim C3: for an existing, unmasked service, an inactive probe
increments `failures` by exactly one and persists that table before the
recovery attempt starts; a successful recovery resets `failures` to zero
and persists; an active probe with positive `failures` resets to zero and
persists; and when recovery fails the cycle ends with `failures` exactly
one above its previous value, so it never decreases across consecutive
inactive observations with failing recovery. -/
theorem c3_failure_counter (env : CycleEnv) (name : String)
    (action : ActionKind) (alarm : Bool) (t : StateTable)
    (hex : check_service_exists env.existsResult = true)
    (hmask : is_service_masked env.enabledResult = false) :
    (is_active_result env.activeResult = false →
      (check_service env name action alarm t).2.take 3 =
        [Event.probed env.activeResult,
          Event.saved (setState t name { getState t name with
            failures := (getState t name).failures + 1 }) env.saveOk,
          Event.recovered (perform_action env.actionEnv action).2])
    ∧ (is_active_result env.activeResult = false →
        (perform_action env.actionEnv action).1 = true →
        (getState (check_service env name action alarm t).1 name).failures = 0
        ∧ (check_service env name action alarm t).2.getLast? =
            some (Event.saved (check_service env name action alarm t).1
              env.saveOk))
    ∧ (is_active_result env.activeResult = true →
        0 < (getState t name).failures →
        (getState (check_service env name action alarm t).1 name).failures = 0
        ∧ (check_service env name action alarm t).2 =
            [Event.probed env.activeResult,
              Event.saved (check_service env name action alarm t).1 env.saveOk])
    ∧ (is_active_result env.activeResult = false →
        (perform_action env.actionEnv action).1 = false →
        (getState (check_service env name action alarm t).1 name).failures =
          (getState t name).failures + 1) := by
  refine ⟨?_, ?_, ?_, ?_⟩
  · intro hact
    simp only [check_service, hex, hmask, hact, Bool.not_true,
      Bool.false_eq_true, if_false]
    split
    · simp [List.take]
    · split
      · split
        · simp [List.take]
        · simp [List.take]
      · simp [List.take]
  · intro hact hrec
    simp [check_service, hex, hmask, hact, hrec, getState_setState]
  · intro hact hpos
    have hpos' : (getState t name).failures > 0 := hpos
    simp [check_service, hex, hmask, hact, hpos', getState_setState]
  · intro hact hrec
    simp only [check_service, hex, hmask, hact, hrec, Bool.not_true,
      Bool.false_eq_true, if_false]
    split
    · split
      · simp [getState_setState]
      · simp [getState_setState]
    · simp [getState_setState]

/-- Closed instance of the failure-counter theorem: an active observation
with two recorded failures resets the persisted counter to zero. -/
theorem c3_witness :
    (getState (check_service activeEnv "web.service" ActionKind.restart true
        [("web.service", ⟨2, 0⟩)]).1 "web.service").failures = 0
    ∧ (check_service activeEnv "web.service" ActionKind.restart true
        [("web.service", ⟨2, 0⟩)]).2 =
      [Event.probed activeEnv.activeResult,
        Event.saved (check_service activeEnv "web.service" ActionKind.restart
          true [("web.service", ⟨2, 0⟩)]).1 activeEnv.saveOk] :=
  (c3_failure_counter activeEnv "web.service" ActionKind.restart true
    [("web.service", ⟨2, 0⟩)] (by decide) (by decide)).2.2.1 (by decide)
    (by decide)

/-- Claim C1 counterexample: in a cycle whose alert condition holds and
whose `send_email` FAILS (`sendOk = false`), the persisted `last_alert`
still moves from 0 to the current time 5000 — the source records the alert
timestamp unconditionally after invoking the notifier (lines 448-450), so
a failed send does NOT leave the rate-limit window open. -/
theorem c1_counterexample :
    alertEnv.sendOk = false
    ∧ Event.alerted false ∈
        (check_service alertEnv "apache2.service" ActionKind.restart true
          alertTable).2
    ∧ (getState alertTable "apache2.service").last_alert = 0
    ∧ (getState (check_service alertEnv "apache2.service" ActionKind.restart
        true alertTable).1 "apache2.service").last_alert = 5000 := by
  decide

/-- Claim C1 (amended): whenever the alert condition holds and the notifier
is invoked, the persisted `last_alert` is updated to the current time
REGARDLESS of whether the send reports success — a failed send closes the
rate-limit window exactly as a successful one does; when the alert
condition does not hold, `last_alert` is unchanged. -/
theorem c1_last_alert_amended (env : CycleEnv) (name : String)
    (action : ActionKind) (alarm : Bool) (t : StateTable)
    (hex : check_service_exists env.existsResult = true)
    (hmask : is_service_masked env.enabledResult = false)
    (hact : is_active_result env.activeResult = false)
    (hrec : (perform_action env.actionEnv action).1 = false) :
    (shouldAlert { getState t name with
        failures := (getState t name).failures + 1 } alarm env.now = true →
      (getState (check_service env name action alarm t).1 name).last_alert =
        env.now
      ∧ Event.alerted env.sendOk ∈ (check_service env name action alarm t).2)
    ∧ (shouldAlert { getState t name with
        failures := (getState t name).failures + 1 } alarm env.now = false →
      (getState (check_service env name action alarm t).1 name).last_alert =
        (getState t name).last_alert) := by
  simp only [shouldAlert, check_service, hex, hmask, hact, hrec,
    Bool.not_true, Bool.false_eq_true, if_false, getState_setState]
  constructor
  · intro h
    split
    · split
      · simp [getState_setState]
      · simp_all [getState_setState]
    · simp_all [getState_setState]
  · intro h
    split
    · split
      · simp_all [getState_setState]
      · simp [getState_setState]
    · simp [getState_setState]

/-- Closed instance of the amended C1 statement at the concrete failing-send
environment. -/
theorem c1_witness :
    (getState (check_service alertEnv "apache2.service" ActionKind.restart
        true alertTable).1 "apache2.service").last_alert = alertEnv.now
    ∧ Event.alerted alertEnv.sendOk ∈
        (check_service alertEnv "apache2.service" ActionKind.restart true
          alertTable).2 :=
  (c1_last_alert_amended alertEnv "apache2.service" ActionKind.restart true
    alertTable (by decide) (by decide) (by decide) (by decide)).1 (by decide)

/-- Claim C10: the masked check returns true exactly when the `is-enabled`
output contains the substring `masked` or the command exited nonzero — so
a merely disabled service also counts as masked — and any service the check
reports masked is skipped entirely: `check_service` leaves the table
untouched and performs no probe, no save, no recovery and no alert. -/
theorem c10_masked_or_disabled_skipped :
    (∀ r : CmdResult, is_service_masked r = true ↔
      (strContains "masked".data r.stdout.data = true ∨ r.rc ≠ 0))
    ∧ is_service_masked ⟨1, "disabled", ""⟩ = true
    ∧ (∀ (env : CycleEnv) (name : String) (action : ActionKind)
        (alarm : Bool) (t : StateTable),
        is_service_masked env.enabledResult = true →
        check_service env name action alarm t = (t, [])) := by
  refine ⟨?_, by decide, ?_⟩
  · intro r
    simp [is_service_masked]
  · intro env name action alarm t hmask
    by_cases hex : check_service_exists env.existsResult
    · simp [check_service, hex, hmask]
    · simp [check_service, hex]

/-- Closed instance: a disabled (not masked) service is skipped with no
state change and no events. -/
theorem c10_witness :
    check_service disabledEnv "foo.service" ActionKind.restart true
      [("foo.service", ⟨3, 7⟩)] = ([("foo.service", ⟨3, 7⟩)], []) :=
  c10_masked_or_disabled_skipped.2.2 disabledEnv "foo.service"
    ActionKind.restart true [("foo.service", ⟨3, 7⟩)] (by decide)

/-- Claim C5 counterexample: a present, parsable state file holding the
JSON object mapping "svc" to the bare number 5 — corrupt content, since
the entry has no integer `failures`/`last_alert` fields — is NOT replaced
by the empty table: `load_state` adopts it verbatim, because the source's
`except` path (line 182) fires only when `json.load` or the dict
conversion raises, and a well-formed JSON object raises neither. -/
theorem c5_counterexample :
    load_state (StateFile.parsed (Json.obj [("svc", Json.num 5)])) =
      [("svc", Json.num 5)]
    ∧ load_state (StateFile.parsed (Json.obj [("svc", Json.num 5)])) ≠
      ([] : RawTable) :=
  ⟨rfl, by simp [load_state, dict_of_json]⟩

/-- Claim C5 (amended): loading after saving yields verbatim the saved
table's JSON image, and that image determines the table, so the round trip
loses nothing; a missing file, unreadable or unparsable text, and parsed
values the dict conversion rejects (numbers, booleans, null, nonempty
strings) all yield the empty table — under which every key defaults to
zero failures and zero last-alert — and the loader is total, so no error
reaches the caller; but any parsable JSON object, well-shaped or not and
whatever its field order, is adopted verbatim rather than replaced by the
empty table. -/
theorem c5_state_store_amended :
    (∀ t : StateTable,
      load_state (StateFile.parsed (save_state t)) = rawOfTable t)
    ∧ (∀ t1 t2 : StateTable, rawOfTable t1 = rawOfTable t2 → t1 = t2)
    ∧ load_state StateFile.missing = ([] : RawTable)
    ∧ load_state StateFile.unparsable = ([] : RawTable)
    ∧ (∀ name : String,
        getState ([] : StateTable) name = { failures := 0, last_alert := 0 })
    ∧ (∀ n : Int, load_state (StateFile.parsed (Json.num n)) = ([] : RawTable))
    ∧ (∀ b : Bool,
        load_state (StateFile.parsed (Json.bool b)) = ([] : RawTable))
    ∧ load_state (StateFile.parsed Json.null) = ([] : RawTable)
    ∧ (∀ s : String, s.isEmpty = false →
        load_state (StateFile.parsed (Json.str s)) = ([] : RawTable))
    ∧ (∀ fields : List (String × Json),
        load_state (StateFile.parsed (Json.obj fields)) = fields) := by
  refine ⟨fun t => rfl, rawOfTable_injective, rfl, rfl, fun _ => rfl,
    fun _ => rfl, fun _ => rfl, rfl, ?_, fun _ => rfl⟩
  intro s hs
  simp [load_state, dict_of_json, hs]

/-- Claim C6: acquisition fails (returns False) when the lock file records
a live pid; after removing a lock whose pid is dead or unparsable it
succeeds, writing this process's pid; when stale-lock removal itself fails
the error surfaces (an uncaught OSError) instead of looping; and the
recursion is bounded — any fuel of at least two computes the same result,
so the reclamation retries acquisition at most once. -/
theorem c6_acquire_lock (me : Int) (fs : LockFS) :
    (∀ c p, fs.lock = some c → int_of_string c = some p → fs.alive p = true →
      acquire_lock me 2 fs = (.busy, fs))
    ∧ (∀ c p, fs.lock = some c → int_of_string c = some p →
        fs.alive p = false → fs.removeFails = false →
        acquire_lock me 2 fs =
          (.acquired, { fs with lock := some (toString me) }))
    ∧ (∀ c, fs.lock = some c → int_of_string c = none →
        fs.removeFails = false →
        acquire_lock me 2 fs =
          (.acquired, { fs with lock := some (toString me) }))
    ∧ (∀ c, fs.lock = some c → fs.removeFails = true →
        (int_of_string c = none ∨
          ∃ p, int_of_string c = some p ∧ fs.alive p = false) →
        (acquire_lock me 2 fs).1 = .raised)
    ∧ (∀ fuel, 2 ≤ fuel → acquire_lock me fuel fs = acquire_lock me 2 fs) := by
  have hout : acquire_lock me 2 fs = acquire_lock_outcome me fs :=
    acquire_lock_eq_outcome me fs 0
  refine ⟨?_, ?_, ?_, ?_, ?_⟩
  · intro c p hc hp ha
    rw [hout]
    simp [acquire_lock_outcome, hc, hp, ha]
  · intro c p hc hp ha hr
    rw [hout]
    simp [acquire_lock_outcome, hc, hp, ha, hr]
  · intro c hc hp hr
    rw [hout]
    simp [acquire_lock_outcome, hc, hp, hr]
  · intro c hc hr hcase
    rw [hout]
    rcases hcase with hp | ⟨p, hp, ha⟩
    · simp [acquire_lock_outcome, hc, hp, hr]
    · simp [acquire_lock_outcome, hc, hp, ha, hr]
  · intro fuel h
    obtain ⟨k, rfl⟩ := Nat.exists_eq_add_of_le h
    rw [show 2 + k = k + 2 from by omega, acquire_lock_eq_outcome me fs k,
      hout]

/-- Closed instance of the lock-acquisition theorem: reclaiming a stale
lock (dead pid 12) acquires the lock and records this process's pid 7. -/
theorem c6_witness :
    acquire_lock 7 2 staleFS =
      (.acquired, { staleFS with lock := some (toString (7 : Int)) }) :=
  (c6_acquire_lock 7 staleFS).2.1 "12" 12 rfl (by decide) rfl rfl

/-- Claim C9: releasing with no lock file present changes nothing, release
is idempotent, it only ever removes the lock file (its sole effect, and a
swallowed removal failure leaves the filesystem as it was — the function
always returns normally), and within a run the release is reached only
when this process acquired the lock, at which point the lock file records
this process's own pid. -/
theorem c9_release_lock :
    (∀ fs : LockFS, fs.lock = none → release_lock fs = fs)
    ∧ (∀ fs : LockFS, release_lock (release_lock fs) = release_lock fs)
    ∧ (∀ fs : LockFS, release_lock fs = fs ∨
        release_lock fs = { fs with lock := none })
    ∧ (∀ env : RunEnv, RunEvent.releasedLock ∈ (program_run env).2.1 →
        (acquire_lock env.myPid 2 env.fs).1 = .acquired ∧
        (acquire_lock env.myPid 2 env.fs).2.lock =
          some (toString env.myPid)) := by
  refine ⟨?_, ?_, ?_, ?_⟩
  · intro fs h
    simp [release_lock, h]
  · intro fs
    rcases h : fs.lock with _ | c
    · simp [release_lock, h]
    · cases hr : fs.removeFails with
      | false => simp [release_lock, h, hr]
      | true => simp [release_lock, h, hr]
  · intro fs
    rcases h : fs.lock with _ | c
    · left
      simp [release_lock, h]
    · cases hr : fs.removeFails with
      | false =>
        right
        simp [release_lock, h, hr]
      | true =>
        left
        simp [release_lock, h, hr]
  · intro env hmem
    by_cases he : (env.euid != 0) = true
    · simp [program_run, he] at hmem
    · have hb : (env.euid != 0) = false := by
        revert he
        cases env.euid != 0 <;> simp
      rcases h2 : acquire_lock env.myPid 2 env.fs with ⟨o, fs1⟩
      cases o with
      | acquired =>
        refine ⟨rfl, ?_⟩
        have := acquire_lock_acquired_content env.myPid 2 env.fs
          (by rw [h2])
        rwa [h2] at this
      | busy => simp [program_run, hb, h2] at hmem
      | raised => simp [program_run, hb, h2] at hmem
      | fuelOut => simp [program_run, hb, h2] at hmem

/-- Closed instance of the release theorem: releasing with no lock file is
a no-op. -/
theorem c9_witness : release_lock emptyFS = emptyFS :=
  c9_release_lock.1 emptyFS rfl

/-- Claim C8 counterexample: with root privilege, an acquirable lock and an
unexpected error raised inside the monitoring loop, the process exits with
status 0 — not nonzero — because the `except` at line 575 catches the
error, logs it, and `run` then returns normally after the `finally` block
saves state and releases the lock. -/
theorem c8_counterexample :
    c8Env.bodyRaises = true ∧ (program_run c8Env).1 = 0 := by
  constructor
  · rfl
  · decide

/-- Claim C8 (amended): the process exits 1 when not run as root, exits 1
when the lock is held by a live process, exits 1 when stale-lock removal
raises, and otherwise exits 0 — including after an unrecovered mid-run
error, which is caught and logged, with state saved and the lock released
before exit. -/
theorem c8_exit_codes_amended (env : RunEnv) :
    (env.euid ≠ 0 → (program_run env).1 = 1)
    ∧ ((acquire_lock env.myPid 2 env.fs).1 = .busy → (program_run env).1 = 1)
    ∧ ((acquire_lock env.myPid 2 env.fs).1 = .raised →
        (program_run env).1 = 1)
    ∧ (env.euid = 0 → (acquire_lock env.myPid 2 env.fs).1 = .acquired →
        (program_run env).1 = 0
        ∧ RunEvent.savedFinalState ∈ (program_run env).2.1
        ∧ RunEvent.releasedLock ∈ (program_run env).2.1
        ∧ (env.bodyRaises = true →
            RunEvent.loggedError ∈ (program_run env).2.1)) := by
  have hcases : ∀ o : AcqOutcome, ∀ fs1 : LockFS,
      acquire_lock env.myPid 2 env.fs = (o, fs1) → o ≠ .acquired →
      (env.euid != 0) = false → (program_run env).1 = 1 := by
    intro o fs1 h2 ho hb
    cases o with
    | acquired => exact absurd rfl ho
    | busy => simp [program_run, hb, h2]
    | raised => simp [program_run, hb, h2]
    | fuelOut => simp [program_run, hb, h2]
  refine ⟨?_, ?_, ?_, ?_⟩
  · intro h
    have hb : (env.euid != 0) = true := by simpa using h
    simp [program_run, hb]
  · intro hacq
    by_cases he : (env.euid != 0) = true
    · simp [program_run, he]
    · have hb : (env.euid != 0) = false := by
        revert he
        cases env.euid != 0 <;> simp
      rcases h2 : acquire_lock env.myPid 2 env.fs with ⟨o, fs1⟩
      rw [h2] at hacq
      exact hcases o fs1 h2 (by simp_all) hb
  · intro hacq
    by_cases he : (env.euid != 0) = true
    · simp [program_run, he]
    · have hb : (env.euid != 0) = false := by
        revert he
        cases env.euid != 0 <;> simp
      rcases h2 : acquire_lock env.myPid 2 env.fs with ⟨o, fs1⟩
      rw [h2] at hacq
      exact hcases o fs1 h2 (by simp_all) hb
  · intro he hacq
    have hb : (env.euid != 0) = false := by simp [he]
    rcases h2 : acquire_lock env.myPid 2 env.fs with ⟨o, fs1⟩
    rw [h2] at hacq
    have ho : o = .acquired := by simpa using hacq
    subst ho
    cases hbr : env.bodyRaises <;> simp [program_run, hb, h2, hbr]

/-- Closed instance of the amended exit-code statement at the concrete
erroring environment: exit status 0 with the full cleanup trace. -/
theorem c8_witness :
    (program_run c8Env).1 = 0
    ∧ RunEvent.savedFinalState ∈ (program_run c8Env).2.1
    ∧ RunEvent.releasedLock ∈ (program_run c8Env).2.1
    ∧ (c8Env.bodyRaises = true →
        RunEvent.loggedError ∈ (program_run c8Env).2.1) :=
  (c8_exit_codes_amended c8Env).2.2.2 rfl (by decide)

/-- Claim C7 counterexample: `save_state` is NOT write-then-rename: it
truncates the state file in place (mode `'w'`, line 189) and streams the
new serialization, so a crash mid-write leaves a file that is neither the
old content nor the new one. -/
theorem c7_counterexample : ¬ save_state_atomic := by
  intro h
  rcases h (renderTable []) [("a", ⟨1, 0⟩)] 1 with h1 | h1
  · exact absurd h1 (by decide)
  · exact absurd h1 (by decide)

/-- Claim C7 (amended): `save_state` writes the serialized table in place
— a completed write leaves exactly the new serialization, but a crash can
leave a proper half-written prefix that matches neither the old nor the
new content; on a write failure the cycle's resulting table is unaffected
and the failure is reported in the trace while the loop continues to the
recovery attempt. -/
theorem c7_save_amended :
    (∀ (old : String) (t : StateTable),
      save_state_afterCrash old t (renderTable t).length = renderTable t)
    ∧ (∃ (old : String) (t : StateTable) (k : Nat),
        save_state_afterCrash old t k ≠ old ∧
          save_state_afterCrash old t k ≠ renderTable t)
    ∧ (∀ (env : CycleEnv) (name : String) (action : ActionKind)
        (alarm : Bool) (t : StateTable) (b : Bool),
        (check_service { env with saveOk := b } name action alarm t).1 =
          (check_service env name action alarm t).1)
    ∧ (∀ (env : CycleEnv) (name : String) (action : ActionKind)
        (alarm : Bool) (t : StateTable),
        env.saveOk = false →
        check_service_exists env.existsResult = true →
        is_service_masked env.enabledResult = false →
        is_active_result env.activeResult = false →
        Event.saved (setState t name { getState t name with
            failures := (getState t name).failures + 1 }) false ∈
          (check_service env name action alarm t).2
        ∧ Event.recovered (perform_action env.actionEnv action).2 ∈
          (check_service env name action alarm t).2) := by
  refine ⟨?_, ⟨renderTable [], [("a", ⟨1, 0⟩)], 1, by decide, by decide⟩,
    ?_, ?_⟩
  · intro old t
    show String.mk ((renderTable t).data.take (renderTable t).length) = _
    rw [String.length, List.take_length]
  · intro env name action alarm t b
    simp only [check_service]
    split_ifs <;> rfl
  · intro env name action alarm t hsave hex hmask hact
    rw [← hsave]
    simp only [check_service, hex, hmask, hact, Bool.not_true,
      Bool.false_eq_true, if_false]
    split
    · simp
    · split
      · split
        · simp
        · simp
      · simp

/-- Closed instance of the amended save statement: with a failing write the
persisted-with-error event and the continued recovery attempt both appear
in the trace. -/
theorem c7_witness :
    Event.saved [("a.service", ⟨1, 0⟩)] false ∈
      (check_service failSaveEnv "a.service" ActionKind.restart false []).2
    ∧ Event.recovered
        (perform_action failSaveEnv.actionEnv ActionKind.restart).2 ∈
      (check_service failSaveEnv "a.service" ActionKind.restart false []).2 :=
  c7_save_amended.2.2.2 failSaveEnv "a.service" ActionKind.restart false []
    rfl (by decide) (by decide) (by decide)

end ServiceMonitor
